import Mathlib

/-!
# Verification of the `singularity pull` dispatch core

A shallow embedding of `src/cmd/internal/cli/pull.go` (`pullRun` and its
flag state).  External collaborators — the URI classifier
(`internal/pkg/util/uri`), the library reference normalizer
(`internal/pkg/client/library`), the cache provider, the stat probe and
the five backend adapters — are not under `src/`; they are represented
as oracle fields of an `Externals` record, so every theorem quantifies
over their behaviour.  The embedding returns the ordered trace of
observable steps together with the final outcome (success, or the fatal
message `sylog.Fatalf` would print before exiting).
-/

namespace Pull

/-- Transport protocol constants, from the `const` block of pull.go. -/
def LibraryProtocol : String := "library"

/-- `shub://` protocol constant from pull.go. -/
def ShubProtocol : String := "shub"

/-- `http://` protocol constant from pull.go. -/
def HTTPProtocol : String := "http"

/-- `https://` protocol constant from pull.go. -/
def HTTPSProtocol : String := "https"

/-- `oras://` protocol constant from pull.go. -/
def OrasProtocol : String := "oras"

/-- Result of the `os.Stat(pullTo)` probe, as pull.go distinguishes it:
`statOk` (nil error: the file exists), `notExist` (`os.IsNotExist(err)`),
or `otherErr` (any other error, e.g. permission denied). -/
inductive StatResult
  | statOk
  | notExist
  | otherErr
deriving DecidableEq, Repr

/-- The part of the normalized library reference pull.go inspects:
`NormalizeLibraryRef` returns a structure whose `Host` field is read at
lines 230 and 237. -/
structure LibraryRef where
  host : String
deriving DecidableEq, Repr

/-- Result of `library.PullToFile`: success, the designated
`ErrLibraryPullUnsigned` sentinel, or a hard error with a message. -/
inductive LibPullResult
  | ok
  | unsigned
  | err (msg : String)
deriving DecidableEq, Repr

/-- The flag state read by `pullRun`: the package-level variables of
pull.go plus the shared flags (`forceOverwrite`, `noHTTPS`,
`disableCache`, `tmpDir`) registered on the pull command. -/
structure Config where
  pullLibraryURI : String
  pullImageName : String
  unauthenticatedPull : Bool
  pullDir : String
  pullArch : String
  pullOci : Bool
  forceOverwrite : Bool
  noHTTPS : Bool
  disableCache : Bool
  tmpDir : String
deriving DecidableEq, Repr

/-- Oracles for every collaborator `pullRun` calls that lives outside
`src/`.  `cacheHandle` is `none` when `getCacheHandle` returns nil;
`split` is `uri.Split`; `getName` is `uri.GetName`;
`normalizeLibraryRef` is `library.NormalizeLibraryRef`;
`libraryClientConfig` is `getLibraryClientConfig` applied to the
computed library URI; `keyserverOpts` is `getKeyserverClientOpts`;
`dockerCredentials` is `makeDockerCredentials`; `ociIsSupported` is
`oci.IsSupported` (returns its argument when the transport is an
OCI-compatible one, something else otherwise); `stat` is the
`os.Stat` probe on a path; `defaultEndpoint` is the caller's default
configured library endpoint; the five `*Pull` fields are the backend
adapters' results. -/
structure Externals where
  cacheHandle : Option Unit
  split : String → String × String
  getName : String → String
  normalizeLibraryRef : String → Except String LibraryRef
  libraryClientConfig : String → Except String Unit
  keyserverOpts : Except String Unit
  dockerCredentials : Except String Unit
  ociIsSupported : String → String
  stat : String → StatResult
  defaultEndpoint : String
  libraryPull : LibPullResult
  shubPull : Except String Unit
  orasPull : Except String Unit
  netPull : Except String Unit
  ociPull : Except String Unit

/-- Observable steps of a run, in the order `pullRun` performs them. -/
inductive Event
  | cacheAcquire
  | classify (transport ref : String)
  | resolveDest (path : String)
  | statCheck (path : String)
  | normalize
  | libConfig (uri : String)
  | keyserver
  | credentials
  | backend (name : String)
  | warn (msg : String)
deriving DecidableEq, Repr

/-- Final outcome: normal return, or the message of the `sylog.Fatalf`
call that terminated the process. -/
inductive Outcome
  | success
  | fatal (msg : String)
deriving DecidableEq, Repr

/-- A run: the trace of observable steps and the outcome. -/
abbrev Run := List Event × Outcome

/-- Models Go's `filepath.Join(dir, name)` for the non-empty `dir` the
code guards on (path cleaning is irrelevant at this layer). -/
def filepathJoin (dir name : String) : String := dir ++ "/" ++ name

/-- Lines 199–213 of pull.go: choose the destination path `pullTo` from
the `--name` override, the positional arguments, the derived name and
`--dir`. -/
def resolvePullTo (cfg : Config) (ext : Externals) (args : List String)
    (pullFrom transport : String) : String :=
  let pullTo := cfg.pullImageName
  let pullTo :=
    if pullTo = "" then
      let pullTo := args.headD ""
      if args.length = 1 then
        if transport = "" then ext.getName ("library://" ++ pullFrom)
        else ext.getName pullFrom
      else pullTo
    else pullTo
  if cfg.pullDir ≠ "" then filepathJoin cfg.pullDir pullTo else pullTo

/-- Lines 234–244 of pull.go: the library URI handed to
`getLibraryClientConfig` — the `--library` override if non-empty, else
the scheme-prefixed host embedded in the normalized reference if
non-empty, else the empty string. -/
def resolveLibraryURI (cfg : Config) (r : LibraryRef) : String :=
  if cfg.pullLibraryURI ≠ "" then cfg.pullLibraryURI
  else if r.host ≠ "" then
    if cfg.noHTTPS then "http://" ++ r.host else "https://" ++ r.host
  else ""

/-- Modelled from the spec: `getLibraryClientConfig` (outside `src/`)
resolves the effective endpoint — an empty URI argument falls back to
the caller's default configured endpoint, a non-empty one is used as
given. -/
def effectiveEndpoint (defaultEndpoint uri : String) : String :=
  if uri = "" then defaultEndpoint else uri

/-- Lines 224–269 of pull.go: the `library` (or empty-transport) case of
the dispatch switch. -/
def libraryBranch (cfg : Config) (ext : Externals) (pullFrom : String) : Run :=
  match ext.normalizeLibraryRef pullFrom with
  | .error e => ([Event.normalize], .fatal ("Malformed library reference: " ++ e))
  | .ok r =>
    if cfg.pullLibraryURI ≠ "" ∧ r.host ≠ "" then
      ([Event.normalize],
       .fatal "Conflicting arguments; do not use --library with a library URI containing host name")
    else
      let libraryURI := resolveLibraryURI cfg r
      match ext.libraryClientConfig libraryURI with
      | .error e =>
          ([Event.normalize, Event.libConfig libraryURI],
           .fatal ("Unable to get library client configuration: " ++ e))
      | .ok _ =>
        match ext.keyserverOpts with
        | .error e =>
            ([Event.normalize, Event.libConfig libraryURI, Event.keyserver],
             .fatal ("Unable to get keyserver client configuration: " ++ e))
        | .ok _ =>
          let tr := [Event.normalize, Event.libConfig libraryURI, Event.keyserver,
                     Event.backend "library"]
          match ext.libraryPull with
          | .err e => (tr, .fatal ("While pulling library image: " ++ e))
          | .unsigned => (tr ++ [Event.warn "Skipping container verification"], .success)
          | .ok => (tr, .success)

/-- Lines 223–311 of pull.go: the `switch transport` dispatch.  Cases in
source order; the `oci.IsSupported(transport)` case matches when that
call returns the transport itself; the default case is the unsupported
transport error. -/
def dispatch (cfg : Config) (ext : Externals) (pullFrom transport : String) : Run :=
  if transport = LibraryProtocol ∨ transport = "" then
    libraryBranch cfg ext pullFrom
  else if transport = ShubProtocol then
    match ext.shubPull with
    | .error e => ([Event.backend "shub"], .fatal ("While pulling shub image: " ++ e ++ "\n"))
    | .ok _ => ([Event.backend "shub"], .success)
  else if transport = OrasProtocol then
    match ext.dockerCredentials with
    | .error e => ([Event.credentials], .fatal ("Unable to make docker oci credentials: " ++ e))
    | .ok _ =>
      match ext.orasPull with
      | .error e =>
          ([Event.credentials, Event.backend "oras"],
           .fatal ("While pulling image from oci registry: " ++ e))
      | .ok _ => ([Event.credentials, Event.backend "oras"], .success)
  else if transport = HTTPProtocol ∨ transport = HTTPSProtocol then
    match ext.netPull with
    | .error e =>
        ([Event.backend "net"], .fatal ("While pulling from image from http(s): " ++ e ++ "\n"))
    | .ok _ => ([Event.backend "net"], .success)
  else if ext.ociIsSupported transport = transport then
    match ext.dockerCredentials with
    | .error e => ([Event.credentials], .fatal ("While creating Docker credentials: " ++ e))
    | .ok _ =>
      match ext.ociPull with
      | .error e =>
          ([Event.credentials, Event.backend "oci"],
           .fatal ("While making image from oci registry: " ++ e))
      | .ok _ => ([Event.credentials, Event.backend "oci"], .success)
  else ([], .fatal ("Unsupported transport type: " ++ transport))

/-- Lines 185–311 of pull.go: the whole of `pullRun`.  `args` are the
positional arguments (cobra guarantees one or two). -/
def pullRun (cfg : Config) (ext : Externals) (args : List String) : Run :=
  match ext.cacheHandle with
  | none => ([Event.cacheAcquire], .fatal "Failed to create an image cache handle")
  | some _ =>
    let pullFrom := args.getLastD ""
    let transport := (ext.split pullFrom).1
    let ref := (ext.split pullFrom).2
    let tr := [Event.cacheAcquire, Event.classify transport ref]
    if ref = "" then (tr, .fatal ("Bad URI " ++ pullFrom))
    else
      let pullTo := resolvePullTo cfg ext args pullFrom transport
      let tr := tr ++ [Event.resolveDest pullTo, Event.statCheck pullTo]
      if ext.stat pullTo ≠ StatResult.notExist ∧ ¬cfg.forceOverwrite then
        (tr, .fatal ("Image file already exists: \"" ++ pullTo ++ "\" - will not overwrite"))
      else
        let d := dispatch cfg ext pullFrom transport
        (tr ++ d.1, d.2)

/-- A baseline flag state: every flag at its registered default. -/
def cfg0 : Config where
  pullLibraryURI := ""
  pullImageName := ""
  unauthenticatedPull := false
  pullDir := ""
  pullArch := "amd64"
  pullOci := false
  forceOverwrite := false
  noHTTPS := false
  disableCache := false
  tmpDir := "/tmp"

/-- A baseline collaborator behaviour: the cache handle is available,
locators of the form `t://body` classify as `(t, body)` for the handful
of transports exercised in concrete runs, names derive by appending
`.sif`, normalization yields a hostless reference, every configuration
step succeeds and every backend succeeds. -/
def ext0 : Externals where
  cacheHandle := some ()
  split := fun s =>
    if s = "library://x" then ("library", "x")
    else if s = "shub://a" then ("shub", "a")
    else if s = "oras://a" then ("oras", "a")
    else if s = "http://a" then ("http", "a")
    else if s = "docker://a" then ("docker", "a")
    else if s = "ftp://a" then ("ftp", "a")
    else ("", s)
  getName := fun s => s ++ ".sif"
  normalizeLibraryRef := fun _ => .ok ⟨""⟩
  libraryClientConfig := fun _ => .ok ()
  keyserverOpts := .ok ()
  dockerCredentials := .ok ()
  ociIsSupported := fun t => if t = "docker" then t else ""
  stat := fun _ => .notExist
  defaultEndpoint := "https://library.example.io"
  libraryPull := .ok
  shubPull := .ok ()
  orasPull := .ok ()
  netPull := .ok ()
  ociPull := .ok ()

/-- Is the event a backend-adapter invocation? -/
def isBackend : Event → Bool
  | .backend _ => true
  | _ => false

/-- Is the event the classification step? -/
def isClassify : Event → Bool
  | .classify _ _ => true
  | _ => false

/-- Is the event the destination-resolution step? -/
def isResolve : Event → Bool
  | .resolveDest _ => true
  | _ => false

/-- Is the event the destination existence check? -/
def isStatCheck : Event → Bool
  | .statCheck _ => true
  | _ => false

/-- Is the event the cache-handle acquisition? -/
def isCacheAcquire : Event → Bool
  | .cacheAcquire => true
  | _ => false

/-- Is the event a warning message? -/
def isWarn : Event → Bool
  | .warn _ => true
  | _ => false

/-- Externals where the stat probe always reports an error other than
"does not exist". -/
def extStatErr : Externals := { ext0 with stat := fun _ => StatResult.otherErr }

/-- Externals where the library backend reports the unsigned sentinel. -/
def extUnsigned : Externals := { ext0 with libraryPull := .unsigned }

/-- Flag state with a --library override supplied. -/
def cfgLib : Config := { cfg0 with pullLibraryURI := "https://other" }

/-- Externals whose normalizer reports a host-bearing reference. -/
def extHost : Externals := { ext0 with normalizeLibraryRef := fun _ => .ok ⟨"myhost"⟩ }

/-- Externals whose stat probe reports the destination present. -/
def extExisting : Externals := { ext0 with stat := fun _ => StatResult.statOk }

/-- The output-name priority of the amended C1, written from the spec
side: the explicit name override; else, with two positional arguments,
the first positional argument; else the name derived from the reference
(with the library default prefix when the transport is unspecified). -/
def outputBase (cfg : Config) (ext : Externals) (args : List String) : String :=
  if cfg.pullImageName ≠ "" then cfg.pullImageName
  else if args.length = 2 then args.headD ""
  else if (ext.split (args.getLastD "")).1 = "" then
    ext.getName ("library://" ++ args.getLastD "")
  else ext.getName (args.getLastD "")

/-- Spec-side (amended C4): `t` has a dispatch edge — a literal
transport, the empty (defaulted) transport, or one accepted by the
OCI-compatibility predicate. -/
def supportedTransport (ext : Externals) (t : String) : Prop :=
  t = LibraryProtocol ∨ t = "" ∨ t = ShubProtocol ∨ t = OrasProtocol ∨
  t = HTTPProtocol ∨ t = HTTPSProtocol ∨ ext.ociIsSupported t = t

/-- Spec-side (amended C4): the backend adapter selected for `t`
returned the hard error `e` (chain ordered as the dispatch switch). -/
def backendHardErr (ext : Externals) (t e : String) : Prop :=
  if t = LibraryProtocol ∨ t = "" then ext.libraryPull = .err e
  else if t = ShubProtocol then ext.shubPull = .error e
  else if t = OrasProtocol then ext.orasPull = .error e
  else if t = HTTPProtocol ∨ t = HTTPSProtocol then ext.netPull = .error e
  else ext.ociPull = .error e

/-- Spec-side (amended C4): the backend adapter selected for `t`
succeeded. -/
def backendOk (ext : Externals) (t : String) : Prop :=
  if t = LibraryProtocol ∨ t = "" then ext.libraryPull = .ok
  else if t = ShubProtocol then ext.shubPull = .ok ()
  else if t = OrasProtocol then ext.orasPull = .ok ()
  else if t = HTTPProtocol ∨ t = HTTPSProtocol then ext.netPull = .ok ()
  else ext.ociPull = .ok ()

/-- Spec-side (amended C4): the fatal message for a hard error on
transport `t` — a fixed transport-family prefix (the family name, not
always the literal transport string) followed by the underlying
error. -/
def hardErrMsg (t e : String) : String :=
  if t = LibraryProtocol ∨ t = "" then "While pulling library image: " ++ e
  else if t = ShubProtocol then "While pulling shub image: " ++ e ++ "\n"
  else if t = OrasProtocol then "While pulling image from oci registry: " ++ e
  else if t = HTTPProtocol ∨ t = HTTPSProtocol then
    "While pulling from image from http(s): " ++ e ++ "\n"
  else "While making image from oci registry: " ++ e

/-- The pre-backend configuration steps of the dispatch edges all
succeed (library client configuration, keyserver options, docker
credentials). -/
def preDispatchOk (cfg : Config) (ext : Externals) (pf : String) : Prop :=
  (∃ r, ext.normalizeLibraryRef pf = .ok r ∧ ¬(cfg.pullLibraryURI ≠ "" ∧ r.host ≠ "") ∧
    ext.libraryClientConfig (resolveLibraryURI cfg r) = .ok ()) ∧
  ext.keyserverOpts = .ok () ∧ ext.dockerCredentials = .ok ()

/-- Externals where the shub backend reports a hard error. -/
def extShubErr : Externals := { ext0 with shubPull := .error "boom" }

/-- Externals where the oras backend reports a hard error. -/
def extOrasErr : Externals := { ext0 with orasPull := .error "boom" }

example :
    pullRun cfg0 ext0 ["busybox"] =
      ([Event.cacheAcquire, Event.classify "" "busybox",
        Event.resolveDest "library://busybox.sif", Event.statCheck "library://busybox.sif",
        Event.normalize, Event.libConfig "", Event.keyserver, Event.backend "library"],
       .success) := by decide

example :
    (pullRun cfg0 ext0 ["a.sif", "library://x"]).1 =
      [Event.cacheAcquire, Event.classify "library" "x",
       Event.resolveDest "a.sif", Event.statCheck "a.sif",
       Event.normalize, Event.libConfig "", Event.keyserver, Event.backend "library"] := by
  decide

example :
    (pullRun cfg0 { ext0 with orasPull := .error "boom" } ["oras://a"]).2 =
      .fatal "While pulling image from oci registry: boom" := by decide

example :
    (pullRun cfg0 { ext0 with stat := fun _ => .statOk } ["ftp://a"]).2 =
      .fatal "Image file already exists: \"ftp://a.sif\" - will not overwrite" := by decide

example :
    (pullRun cfg0 ext0 ["ftp://a"]).2 = .fatal "Unsupported transport type: ftp" := by decide

/-- When the cache handle is available, the reference body is non-empty
and the existence check passes (either the destination does not exist or
overwrite was requested), `pullRun` reduces to the dispatch switch after
the four pre-dispatch steps. -/
theorem pullRun_reach (cfg : Config) (ext : Externals) (args : List String)
    (hc : ext.cacheHandle = some ())
    (hr : (ext.split (args.getLastD "")).2 ≠ "")
    (hs : ext.stat (resolvePullTo cfg ext args (args.getLastD "")
            (ext.split (args.getLastD "")).1) = StatResult.notExist ∨
          cfg.forceOverwrite = true) :
    pullRun cfg ext args =
      ([Event.cacheAcquire,
        Event.classify (ext.split (args.getLastD "")).1 (ext.split (args.getLastD "")).2,
        Event.resolveDest (resolvePullTo cfg ext args (args.getLastD "")
          (ext.split (args.getLastD "")).1),
        Event.statCheck (resolvePullTo cfg ext args (args.getLastD "")
          (ext.split (args.getLastD "")).1)]
        ++ (dispatch cfg ext (args.getLastD "") (ext.split (args.getLastD "")).1).1,
       (dispatch cfg ext (args.getLastD "") (ext.split (args.getLastD "")).1).2) := by
  simp only [pullRun, hc]
  rw [if_neg hr, if_neg]
  · simp
  · rintro ⟨h1, h2⟩
    rcases hs with hs | hs
    · exact h1 hs
    · rw [hs] at h2
      exact h2 rfl

/-- When the cache handle is available, the reference body is non-empty
and the existence check fails, `pullRun` stops with the already-exists
diagnostic after the four pre-dispatch steps. -/
theorem pullRun_stat_fatal (cfg : Config) (ext : Externals) (args : List String)
    (hc : ext.cacheHandle = some ())
    (hr : (ext.split (args.getLastD "")).2 ≠ "")
    (hs : ext.stat (resolvePullTo cfg ext args (args.getLastD "")
            (ext.split (args.getLastD "")).1) ≠ StatResult.notExist)
    (hf : cfg.forceOverwrite = false) :
    pullRun cfg ext args =
      ([Event.cacheAcquire,
        Event.classify (ext.split (args.getLastD "")).1 (ext.split (args.getLastD "")).2,
        Event.resolveDest (resolvePullTo cfg ext args (args.getLastD "")
          (ext.split (args.getLastD "")).1),
        Event.statCheck (resolvePullTo cfg ext args (args.getLastD "")
          (ext.split (args.getLastD "")).1)],
       .fatal ("Image file already exists: \"" ++
         resolvePullTo cfg ext args (args.getLastD "") (ext.split (args.getLastD "")).1 ++
         "\" - will not overwrite")) := by
  simp only [pullRun, hc]
  rw [if_neg hr, if_pos]
  · simp
  · exact ⟨hs, by simp [hf]⟩

/-- Case-analysis principle for `dispatch`: to prove a property of its
result it suffices to prove it for each of the eighteen leaves of the
switch, under the branch conditions that lead there. -/
theorem dispatch_elim (cfg : Config) (ext : Externals) (pf t : String)
    (P : Run → Prop)
    (hL1 : ∀ e, (t = LibraryProtocol ∨ t = "") → ext.normalizeLibraryRef pf = .error e →
      P ([Event.normalize], .fatal ("Malformed library reference: " ++ e)))
    (hL2 : ∀ r, (t = LibraryProtocol ∨ t = "") → ext.normalizeLibraryRef pf = .ok r →
      cfg.pullLibraryURI ≠ "" → r.host ≠ "" →
      P ([Event.normalize],
        .fatal "Conflicting arguments; do not use --library with a library URI containing host name"))
    (hL3 : ∀ r e, (t = LibraryProtocol ∨ t = "") → ext.normalizeLibraryRef pf = .ok r →
      ¬(cfg.pullLibraryURI ≠ "" ∧ r.host ≠ "") →
      ext.libraryClientConfig (resolveLibraryURI cfg r) = .error e →
      P ([Event.normalize, Event.libConfig (resolveLibraryURI cfg r)],
        .fatal ("Unable to get library client configuration: " ++ e)))
    (hL4 : ∀ r a e, (t = LibraryProtocol ∨ t = "") → ext.normalizeLibraryRef pf = .ok r →
      ¬(cfg.pullLibraryURI ≠ "" ∧ r.host ≠ "") →
      ext.libraryClientConfig (resolveLibraryURI cfg r) = .ok a →
      ext.keyserverOpts = .error e →
      P ([Event.normalize, Event.libConfig (resolveLibraryURI cfg r), Event.keyserver],
        .fatal ("Unable to get keyserver client configuration: " ++ e)))
    (hL5 : ∀ r a b e, (t = LibraryProtocol ∨ t = "") → ext.normalizeLibraryRef pf = .ok r →
      ¬(cfg.pullLibraryURI ≠ "" ∧ r.host ≠ "") →
      ext.libraryClientConfig (resolveLibraryURI cfg r) = .ok a →
      ext.keyserverOpts = .ok b → ext.libraryPull = .err e →
      P ([Event.normalize, Event.libConfig (resolveLibraryURI cfg r), Event.keyserver,
          Event.backend "library"],
        .fatal ("While pulling library image: " ++ e)))
    (hL6 : ∀ r a b, (t = LibraryProtocol ∨ t = "") → ext.normalizeLibraryRef pf = .ok r →
      ¬(cfg.pullLibraryURI ≠ "" ∧ r.host ≠ "") →
      ext.libraryClientConfig (resolveLibraryURI cfg r) = .ok a →
      ext.keyserverOpts = .ok b → ext.libraryPull = .unsigned →
      P ([Event.normalize, Event.libConfig (resolveLibraryURI cfg r), Event.keyserver,
          Event.backend "library", Event.warn "Skipping container verification"],
        .success))
    (hL7 : ∀ r a b, (t = LibraryProtocol ∨ t = "") → ext.normalizeLibraryRef pf = .ok r →
      ¬(cfg.pullLibraryURI ≠ "" ∧ r.host ≠ "") →
      ext.libraryClientConfig (resolveLibraryURI cfg r) = .ok a →
      ext.keyserverOpts = .ok b → ext.libraryPull = .ok →
      P ([Event.normalize, Event.libConfig (resolveLibraryURI cfg r), Event.keyserver,
          Event.backend "library"],
        .success))
    (hS1 : ∀ e, t = ShubProtocol → ext.shubPull = .error e →
      P ([Event.backend "shub"], .fatal ("While pulling shub image: " ++ e ++ "\n")))
    (hS2 : ∀ a, t = ShubProtocol → ext.shubPull = .ok a →
      P ([Event.backend "shub"], .success))
    (hO1 : ∀ e, t = OrasProtocol → ext.dockerCredentials = .error e →
      P ([Event.credentials], .fatal ("Unable to make docker oci credentials: " ++ e)))
    (hO2 : ∀ a e, t = OrasProtocol → ext.dockerCredentials = .ok a → ext.orasPull = .error e →
      P ([Event.credentials, Event.backend "oras"],
        .fatal ("While pulling image from oci registry: " ++ e)))
    (hO3 : ∀ a b, t = OrasProtocol → ext.dockerCredentials = .ok a → ext.orasPull = .ok b →
      P ([Event.credentials, Event.backend "oras"], .success))
    (hN1 : ∀ e, (t = HTTPProtocol ∨ t = HTTPSProtocol) → ext.netPull = .error e →
      P ([Event.backend "net"], .fatal ("While pulling from image from http(s): " ++ e ++ "\n")))
    (hN2 : ∀ a, (t = HTTPProtocol ∨ t = HTTPSProtocol) → ext.netPull = .ok a →
      P ([Event.backend "net"], .success))
    (hC1 : ∀ e, ext.ociIsSupported t = t → ext.dockerCredentials = .error e →
      P ([Event.credentials], .fatal ("While creating Docker credentials: " ++ e)))
    (hC2 : ∀ a e, ext.ociIsSupported t = t → ext.dockerCredentials = .ok a →
      ext.ociPull = .error e →
      P ([Event.credentials, Event.backend "oci"],
        .fatal ("While making image from oci registry: " ++ e)))
    (hC3 : ∀ a b, ext.ociIsSupported t = t → ext.dockerCredentials = .ok a →
      ext.ociPull = .ok b →
      P ([Event.credentials, Event.backend "oci"], .success))
    (hD : ¬(t = LibraryProtocol ∨ t = "") → t ≠ ShubProtocol → t ≠ OrasProtocol →
      ¬(t = HTTPProtocol ∨ t = HTTPSProtocol) → ext.ociIsSupported t ≠ t →
      P ([], .fatal ("Unsupported transport type: " ++ t))) :
    P (dispatch cfg ext pf t) := by
  unfold dispatch libraryBranch
  split
  · rename_i ht
    cases hn : ext.normalizeLibraryRef pf with
    | error e => simp only [hn]; exact hL1 e ht hn
    | ok r =>
      simp only [hn]
      by_cases hcon : cfg.pullLibraryURI ≠ "" ∧ r.host ≠ ""
      · rw [if_pos hcon]; exact hL2 r ht hn hcon.1 hcon.2
      · rw [if_neg hcon]
        cases hlc : ext.libraryClientConfig (resolveLibraryURI cfg r) with
        | error e => simp only [hlc]; exact hL3 r e ht hn hcon hlc
        | ok a =>
          simp only [hlc]
          cases hk : ext.keyserverOpts with
          | error e => simp only [hk]; exact hL4 r a e ht hn hcon hlc hk
          | ok b =>
            simp only [hk]
            cases hp : ext.libraryPull with
            | err e => simp only [hp]; exact hL5 r a b e ht hn hcon hlc hk hp
            | unsigned => simp only [hp]; exact hL6 r a b ht hn hcon hlc hk hp
            | ok => simp only [hp]; exact hL7 r a b ht hn hcon hlc hk hp
  · rename_i hnl
    split
    · rename_i hts
      cases hx : ext.shubPull with
      | error e => simp only [hx]; exact hS1 e hts hx
      | ok a => simp only [hx]; exact hS2 a hts hx
    · rename_i hns
      split
      · rename_i hto
        cases hd : ext.dockerCredentials with
        | error e => simp only [hd]; exact hO1 e hto hd
        | ok a =>
          simp only [hd]
          cases hx : ext.orasPull with
          | error e => simp only [hx]; exact hO2 a e hto hd hx
          | ok b => simp only [hx]; exact hO3 a b hto hd hx
      · rename_i hno
        split
        · rename_i htn
          cases hx : ext.netPull with
          | error e => simp only [hx]; exact hN1 e htn hx
          | ok a => simp only [hx]; exact hN2 a htn hx
        · rename_i hnn
          split
          · rename_i htc
            cases hd : ext.dockerCredentials with
            | error e => simp only [hd]; exact hC1 e htc hd
            | ok a =>
              simp only [hd]
              cases hx : ext.ociPull with
              | error e => simp only [hx]; exact hC2 a e htc hd hx
              | ok b => simp only [hx]; exact hC3 a b htc hd hx
          · rename_i hnc
            exact hD hnl hns hno hnn hnc

/-- The dispatch switch emits at most one backend event and none of the
four pre-dispatch events. -/
theorem dispatch_trace_events (cfg : Config) (ext : Externals) (pf t : String) :
    (dispatch cfg ext pf t).1.countP isBackend ≤ 1 ∧
    (dispatch cfg ext pf t).1.countP isStatCheck = 0 ∧
    (dispatch cfg ext pf t).1.countP isClassify = 0 ∧
    (dispatch cfg ext pf t).1.countP isResolve = 0 ∧
    (dispatch cfg ext pf t).1.countP isCacheAcquire = 0 := by
  apply dispatch_elim cfg ext pf t (fun d =>
    d.1.countP isBackend ≤ 1 ∧ d.1.countP isStatCheck = 0 ∧ d.1.countP isClassify = 0 ∧
    d.1.countP isResolve = 0 ∧ d.1.countP isCacheAcquire = 0)
  all_goals intros
  all_goals simp [List.countP_cons, isBackend, isStatCheck, isClassify, isResolve, isCacheAcquire]

/-- A successful dispatch invoked exactly one backend adapter. -/
theorem dispatch_success_backend (cfg : Config) (ext : Externals) (pf t : String) :
    (dispatch cfg ext pf t).2 = .success → (dispatch cfg ext pf t).1.countP isBackend = 1 := by
  apply dispatch_elim cfg ext pf t (fun d => d.2 = .success → d.1.countP isBackend = 1)
  all_goals intros
  all_goals simp_all [List.countP_cons, isBackend]

/-- C8: with a single positional argument and no name override, an
unspecified-transport locator derives exactly the output name of the
same locator rewritten with the library default prefix `library://`
prepended, while an explicit transport derives from the literal
locator. -/
theorem derivedName_library_default (cfg : Config) (ext : Externals) (loc : String)
    (hname : cfg.pullImageName = "") :
    resolvePullTo cfg ext [loc] loc "" =
      resolvePullTo cfg ext ["library://" ++ loc] ("library://" ++ loc) LibraryProtocol ∧
    ∀ t, t ≠ "" → resolvePullTo cfg ext [loc] loc t =
      (if cfg.pullDir ≠ "" then filepathJoin cfg.pullDir (ext.getName loc)
       else ext.getName loc) := by
  constructor
  · unfold resolvePullTo
    simp [hname, LibraryProtocol]
  · intro t ht
    unfold resolvePullTo
    simp [hname, ht]

/-- Witness for C8 at a concrete locator. -/
theorem derivedName_library_default_witness :
    cfg0.pullImageName = "" ∧
    resolvePullTo cfg0 ext0 ["busybox"] "busybox" "" =
      resolvePullTo cfg0 ext0 ["library://" ++ "busybox"] ("library://" ++ "busybox")
        LibraryProtocol :=
  ⟨rfl, (derivedName_library_default cfg0 ext0 "busybox" rfl).1⟩

/-- C9: a stat probe error other than "does not exist" is treated
exactly as if the destination file exists — the run is identical to one
where the probe reports the file present; without overwrite it fails
fatally with the already-exists diagnostic before any backend, and with
overwrite it proceeds exactly as if the destination did not exist. -/
theorem statProbeError_as_existing (cfg : Config) (ext : Externals) (args : List String) :
    pullRun cfg { ext with stat := fun _ => StatResult.otherErr } args =
      pullRun cfg { ext with stat := fun _ => StatResult.statOk } args ∧
    ((∀ p, ext.stat p = StatResult.otherErr) →
      ext.cacheHandle = some () →
      (ext.split (args.getLastD "")).2 ≠ "" →
      (cfg.forceOverwrite = false →
        (pullRun cfg ext args).2 =
          .fatal ("Image file already exists: \"" ++
            resolvePullTo cfg ext args (args.getLastD "") (ext.split (args.getLastD "")).1 ++
            "\" - will not overwrite") ∧
        (pullRun cfg ext args).1.any isBackend = false) ∧
      (cfg.forceOverwrite = true →
        pullRun cfg ext args =
          pullRun cfg { ext with stat := fun _ => StatResult.notExist } args)) := by
  constructor
  · have hres : ∀ (a : List String) (pf t : String),
        resolvePullTo cfg { ext with stat := fun _ => StatResult.otherErr } a pf t =
          resolvePullTo cfg { ext with stat := fun _ => StatResult.statOk } a pf t :=
      fun _ _ _ => rfl
    have hdisp : ∀ (pf t : String),
        dispatch cfg { ext with stat := fun _ => StatResult.otherErr } pf t =
          dispatch cfg { ext with stat := fun _ => StatResult.statOk } pf t :=
      fun _ _ => rfl
    unfold pullRun
    revert hres hdisp
    cases ext.cacheHandle with
    | none => intros; rfl
    | some u => intro hres hdisp; simp [hres, hdisp]
  · intro hstat hc hr
    constructor
    · intro hf
      rw [pullRun_stat_fatal cfg ext args hc hr (by rw [hstat]; decide) hf]
      simp [isBackend]
    · intro hf
      rw [pullRun_reach cfg ext args hc hr (Or.inr hf),
          pullRun_reach cfg { ext with stat := fun _ => StatResult.notExist } args hc hr
            (Or.inl rfl)]
      rfl

/-- Witness for C9: with an erroring probe and no overwrite flag, the
concrete run stops with the already-exists diagnostic and never reaches
a backend. -/
theorem statProbeError_witness :
    (∀ p, extStatErr.stat p = StatResult.otherErr) ∧
    extStatErr.cacheHandle = some () ∧ cfg0.forceOverwrite = false ∧
    ((pullRun cfg0 extStatErr ["busybox"]).2 =
       .fatal "Image file already exists: \"library://busybox.sif\" - will not overwrite" ∧
     (pullRun cfg0 extStatErr ["busybox"]).1.any isBackend = false) := by
  refine ⟨fun p => rfl, rfl, rfl, ?_⟩
  have h := ((statProbeError_as_existing cfg0 extStatErr ["busybox"]).2
    (fun p => rfl) rfl (by decide)).1 rfl
  exact h

/-- C10: the unsigned-pull acknowledgment flag (`--allow-unsigned` /
`--allow-unauthenticated`, both bound to `unauthenticatedPull`) is never
read by the pull path: any two invocations differing only in it behave
identically, and in particular a soft-unsigned library result emits the
"Skipping container verification" warning and exits success whatever the
flag's value. -/
theorem unauthenticatedPull_unread (cfg : Config) (ext : Externals) (args : List String)
    (b : Bool) :
    pullRun { cfg with unauthenticatedPull := b } ext args = pullRun cfg ext args ∧
    (ext.cacheHandle = some () →
     (ext.split (args.getLastD "")).1 = "" →
     (ext.split (args.getLastD "")).2 ≠ "" →
     (∀ p, ext.stat p = StatResult.notExist) →
     (∀ pf, ext.normalizeLibraryRef pf = .ok ⟨""⟩) →
     (∀ u, ext.libraryClientConfig u = .ok ()) →
     ext.keyserverOpts = .ok () →
     ext.libraryPull = .unsigned →
     (pullRun { cfg with unauthenticatedPull := b } ext args).2 = .success ∧
     Event.warn "Skipping container verification" ∈
       (pullRun { cfg with unauthenticatedPull := b } ext args).1) := by
  constructor
  · rfl
  · intro hc ht hr hstat hn hlcc hk hu
    rw [pullRun_reach { cfg with unauthenticatedPull := b } ext args hc hr (Or.inl (hstat _))]
    rw [ht]
    simp [dispatch, libraryBranch, hn, hlcc, hk, hu]

/-- Witness for C10: a concrete soft-unsigned library run with the flag
set still warns and succeeds. -/
theorem unauthenticatedPull_witness :
    extUnsigned.cacheHandle = some () ∧ extUnsigned.libraryPull = .unsigned ∧
    (pullRun { cfg0 with unauthenticatedPull := true } extUnsigned ["busybox"]).2 = .success ∧
    Event.warn "Skipping container verification" ∈
      (pullRun { cfg0 with unauthenticatedPull := true } extUnsigned ["busybox"]).1 := by
  have h := (unauthenticatedPull_unread cfg0 extUnsigned ["busybox"] true).2
    rfl (by decide) (by decide) (fun p => rfl) (fun pf => rfl) (fun u => rfl) rfl rfl
  exact ⟨rfl, rfl, h.1, h.2⟩

/-- A string with a non-empty left part of an append is non-empty. -/
theorem append_ne_empty (a b : String) (h : a ≠ "") : a ++ b ≠ "" := by
  intro hab
  apply h
  have hl := congrArg String.length hab
  rw [String.length_append] at hl
  have ha : a.length = 0 := by
    have : (String.length "") = 0 := rfl
    omega
  cases a with
  | mk d =>
    cases d with
    | nil => rfl
    | cons c cs => simp [String.length] at ha

/-- If the existence check does not fail, the destination either did not
exist or overwrite was requested. -/
theorem not_fail_stat (cfg : Config) (b : StatResult)
    (h : ¬(b ≠ StatResult.notExist ∧ cfg.forceOverwrite = false)) :
    b = StatResult.notExist ∨ cfg.forceOverwrite = true := by
  by_cases h1 : b = StatResult.notExist
  · exact Or.inl h1
  · right
    by_contra h2
    exact h ⟨h1, by simpa using h2⟩

/-- Once classification succeeds, the trace records the resolution of
the computed destination path. -/
theorem resolveDest_mem (cfg : Config) (ext : Externals) (args : List String)
    (hc : ext.cacheHandle = some ())
    (hr : (ext.split (args.getLastD "")).2 ≠ "") :
    Event.resolveDest
        (resolvePullTo cfg ext args (args.getLastD "") (ext.split (args.getLastD "")).1) ∈
      (pullRun cfg ext args).1 := by
  by_cases hs : ext.stat (resolvePullTo cfg ext args (args.getLastD "")
      (ext.split (args.getLastD "")).1) ≠ StatResult.notExist ∧ cfg.forceOverwrite = false
  · rw [pullRun_stat_fatal cfg ext args hc hr hs.1 hs.2]
    simp
  · rw [pullRun_reach cfg ext args hc hr (not_fail_stat cfg _ hs)]
    simp

/-- C1 (amended): the output filename is chosen by priority — explicit
name override; otherwise, with two positional arguments, the FIRST
positional argument (the last being the source locator); otherwise a
name derived from the reference; and joined under the target directory
when one was supplied. -/
theorem outputName_priority (cfg : Config) (ext : Externals) (args : List String)
    (hc : ext.cacheHandle = some ())
    (hr : (ext.split (args.getLastD "")).2 ≠ "")
    (hlen : args.length = 1 ∨ args.length = 2) :
    Event.resolveDest
        (if cfg.pullDir ≠ "" then filepathJoin cfg.pullDir (outputBase cfg ext args)
         else outputBase cfg ext args) ∈
      (pullRun cfg ext args).1 := by
  have hb : resolvePullTo cfg ext args (args.getLastD "") (ext.split (args.getLastD "")).1 =
      (if cfg.pullDir ≠ "" then filepathJoin cfg.pullDir (outputBase cfg ext args)
       else outputBase cfg ext args) := by
    unfold resolvePullTo outputBase
    rcases hlen with h | h <;>
      (simp only [h]; split_ifs <;> simp_all)
  rw [← hb]
  exact resolveDest_mem cfg ext args hc hr

/-- Witness for C1 (amended): two positional arguments, no override —
the first positional argument is the chosen name. -/
theorem outputName_priority_witness :
    ext0.cacheHandle = some () ∧ (["a.sif", "library://x"].length = 1 ∨ (2 : Nat) = 2) ∧
    Event.resolveDest "a.sif" ∈ (pullRun cfg0 ext0 ["a.sif", "library://x"]).1 :=
  ⟨rfl, Or.inr rfl,
    outputName_priority cfg0 ext0 ["a.sif", "library://x"] rfl (by decide) (Or.inr rfl)⟩

/-- Counterexample to C1 as stated: with two positional arguments and no
name override the chosen output name is the first positional argument,
not the second (the second is the source locator). -/
theorem outputName_secondArg_cex :
    cfg0.pullImageName = "" ∧
    Event.resolveDest "a.sif" ∈ (pullRun cfg0 ext0 ["a.sif", "library://x"]).1 ∧
    Event.resolveDest "library://x" ∉ (pullRun cfg0 ext0 ["a.sif", "library://x"]).1 := by
  decide

/-- C2: for every non-empty --library override and normalized reference
with a non-empty host, the run terminates with the conflict diagnostic
and no backend adapter is ever invoked. -/
theorem libraryConflict_fatal (cfg : Config) (ext : Externals) (args : List String)
    (r : LibraryRef)
    (hc : ext.cacheHandle = some ())
    (ht : (ext.split (args.getLastD "")).1 = LibraryProtocol ∨
          (ext.split (args.getLastD "")).1 = "")
    (hr : (ext.split (args.getLastD "")).2 ≠ "")
    (hs : ext.stat (resolvePullTo cfg ext args (args.getLastD "")
            (ext.split (args.getLastD "")).1) = StatResult.notExist ∨
          cfg.forceOverwrite = true)
    (hn : ext.normalizeLibraryRef (args.getLastD "") = .ok r)
    (huri : cfg.pullLibraryURI ≠ "") (hhost : r.host ≠ "") :
    (pullRun cfg ext args).2 =
      .fatal "Conflicting arguments; do not use --library with a library URI containing host name" ∧
    (pullRun cfg ext args).1.any isBackend = false := by
  rw [pullRun_reach cfg ext args hc hr hs]
  unfold dispatch
  rw [if_pos ht]
  unfold libraryBranch
  simp only [hn]
  rw [if_pos ⟨huri, hhost⟩]
  simp [isBackend]

/-- Witness for C2 at a host-bearing reference and a non-empty
--library override. -/
theorem libraryConflict_fatal_witness :
    cfgLib.pullLibraryURI = "https://other" ∧ extHost.normalizeLibraryRef "library://x" = .ok ⟨"myhost"⟩ ∧
    (pullRun cfgLib extHost ["library://x"]).2 =
      .fatal "Conflicting arguments; do not use --library with a library URI containing host name" ∧
    (pullRun cfgLib extHost ["library://x"]).1.any isBackend = false := by
  have h := libraryConflict_fatal cfgLib extHost ["library://x"] ⟨"myhost"⟩ rfl
    (Or.inl (by decide)) (by decide) (Or.inl rfl) rfl (by decide) (by decide)
  exact ⟨rfl, rfl, h.1, h.2⟩

/-- C3: the existence check is transport-agnostic, runs exactly once,
and without overwrite a pre-existing destination fails fatally naming
the path before any backend is invoked; with overwrite the run proceeds
to dispatch exactly as if the destination did not exist. -/
theorem destExists_check (cfg : Config) (ext : Externals) (args : List String)
    (hc : ext.cacheHandle = some ())
    (hr : (ext.split (args.getLastD "")).2 ≠ "") :
    (ext.stat (resolvePullTo cfg ext args (args.getLastD "")
        (ext.split (args.getLastD "")).1) ≠ StatResult.notExist →
      cfg.forceOverwrite = false →
      (pullRun cfg ext args).2 =
        .fatal ("Image file already exists: \"" ++
          resolvePullTo cfg ext args (args.getLastD "") (ext.split (args.getLastD "")).1 ++
          "\" - will not overwrite") ∧
      (pullRun cfg ext args).1.any isBackend = false) ∧
    (cfg.forceOverwrite = true →
      pullRun cfg ext args = pullRun cfg { ext with stat := fun _ => StatResult.notExist } args) ∧
    (pullRun cfg ext args).1.countP isStatCheck = 1 := by
  refine ⟨?_, ?_, ?_⟩
  · intro hstat hf
    rw [pullRun_stat_fatal cfg ext args hc hr hstat hf]
    simp [isBackend]
  · intro hf
    rw [pullRun_reach cfg ext args hc hr (Or.inr hf),
        pullRun_reach cfg { ext with stat := fun _ => StatResult.notExist } args hc hr
          (Or.inl rfl)]
    rfl
  · by_cases hs : ext.stat (resolvePullTo cfg ext args (args.getLastD "")
        (ext.split (args.getLastD "")).1) ≠ StatResult.notExist ∧ cfg.forceOverwrite = false
    · rw [pullRun_stat_fatal cfg ext args hc hr hs.1 hs.2]
      simp [List.countP_cons, isStatCheck]
    · rw [pullRun_reach cfg ext args hc hr (not_fail_stat cfg _ hs)]
      have hd := (dispatch_trace_events cfg ext (args.getLastD "")
        (ext.split (args.getLastD "")).1).2.1
      rw [List.countP_append, hd]
      simp [List.countP_cons, isStatCheck]

/-- Witness for C3: a pre-existing destination without overwrite fails
with the already-exists diagnostic and no backend runs. -/
theorem destExists_check_witness :
    extExisting.cacheHandle = some () ∧ cfg0.forceOverwrite = false ∧
    ((pullRun cfg0 extExisting ["busybox"]).2 =
       .fatal "Image file already exists: \"library://busybox.sif\" - will not overwrite" ∧
     (pullRun cfg0 extExisting ["busybox"]).1.any isBackend = false) := by
  have h := (destExists_check cfg0 extExisting ["busybox"] rfl (by decide)).1
    (by decide) rfl
  exact ⟨rfl, rfl, h⟩

/-- C7: a non-empty transport matching none of the dispatch edges fails
fatally with a message naming that exact transport string, and no
backend is invoked. -/
theorem unsupportedTransport_fatal (cfg : Config) (ext : Externals) (args : List String)
    (hc : ext.cacheHandle = some ())
    (hr : (ext.split (args.getLastD "")).2 ≠ "")
    (hs : ext.stat (resolvePullTo cfg ext args (args.getLastD "")
            (ext.split (args.getLastD "")).1) = StatResult.notExist ∨
          cfg.forceOverwrite = true)
    (h1 : ¬((ext.split (args.getLastD "")).1 = LibraryProtocol ∨
            (ext.split (args.getLastD "")).1 = ""))
    (h2 : (ext.split (args.getLastD "")).1 ≠ ShubProtocol)
    (h3 : (ext.split (args.getLastD "")).1 ≠ OrasProtocol)
    (h4 : ¬((ext.split (args.getLastD "")).1 = HTTPProtocol ∨
            (ext.split (args.getLastD "")).1 = HTTPSProtocol))
    (h5 : ext.ociIsSupported (ext.split (args.getLastD "")).1 ≠
            (ext.split (args.getLastD "")).1) :
    (pullRun cfg ext args).2 =
      .fatal ("Unsupported transport type: " ++ (ext.split (args.getLastD "")).1) ∧
    (pullRun cfg ext args).1.any isBackend = false := by
  rw [pullRun_reach cfg ext args hc hr hs]
  unfold dispatch
  rw [if_neg h1, if_neg h2, if_neg h3, if_neg h4, if_neg h5]
  simp [isBackend]

/-- Witness for C7 at the unsupported transport "ftp". -/
theorem unsupportedTransport_witness :
    (ext0.split "ftp://a").1 = "ftp" ∧
    (pullRun cfg0 ext0 ["ftp://a"]).2 = .fatal ("Unsupported transport type: " ++ "ftp") ∧
    (pullRun cfg0 ext0 ["ftp://a"]).1.any isBackend = false := by
  have h := unsupportedTransport_fatal cfg0 ext0 ["ftp://a"] rfl (by decide) (Or.inl rfl)
    (by decide) (by decide) (by decide) (by decide) (by decide)
  exact ⟨rfl, h.1, h.2⟩

/-- C6: the library URI handed to the client-configuration step, with an
empty value resolved by the (spec-modelled) provider to the caller's
default endpoint, follows the precedence: explicit override, else the
host embedded in the reference with the scheme chosen by the no-HTTPS
flag, else the default configured endpoint. -/
theorem libraryEndpoint_precedence (cfg : Config) (ext : Externals) (args : List String)
    (r : LibraryRef)
    (hc : ext.cacheHandle = some ())
    (ht : (ext.split (args.getLastD "")).1 = LibraryProtocol ∨
          (ext.split (args.getLastD "")).1 = "")
    (hr : (ext.split (args.getLastD "")).2 ≠ "")
    (hs : ext.stat (resolvePullTo cfg ext args (args.getLastD "")
            (ext.split (args.getLastD "")).1) = StatResult.notExist ∨
          cfg.forceOverwrite = true)
    (hn : ext.normalizeLibraryRef (args.getLastD "") = .ok r)
    (hcon : ¬(cfg.pullLibraryURI ≠ "" ∧ r.host ≠ "")) :
    Event.libConfig (resolveLibraryURI cfg r) ∈ (pullRun cfg ext args).1 ∧
    effectiveEndpoint ext.defaultEndpoint (resolveLibraryURI cfg r) =
      (if cfg.pullLibraryURI ≠ "" then cfg.pullLibraryURI
       else if r.host ≠ "" then
         (if cfg.noHTTPS then "http://" ++ r.host else "https://" ++ r.host)
       else ext.defaultEndpoint) := by
  constructor
  · rw [pullRun_reach cfg ext args hc hr hs]
    unfold dispatch
    rw [if_pos ht]
    unfold libraryBranch
    simp only [hn]
    rw [if_neg hcon]
    cases hlc : ext.libraryClientConfig (resolveLibraryURI cfg r) with
    | error e => simp [hlc]
    | ok a =>
      simp only [hlc]
      cases hk : ext.keyserverOpts with
      | error e => simp [hk]
      | ok b =>
        simp only [hk]
        cases hp : ext.libraryPull <;> simp [hp]
  · unfold effectiveEndpoint resolveLibraryURI
    by_cases h1 : cfg.pullLibraryURI ≠ ""
    · simp [h1]
    · have h1' : cfg.pullLibraryURI = "" := by push_neg at h1; exact h1
      by_cases h2 : r.host ≠ ""
      · cases hh : cfg.noHTTPS
        · simp [h1', h2, hh, append_ne_empty "https://" r.host (by decide)]
        · simp [h1', h2, hh, append_ne_empty "http://" r.host (by decide)]
      · simp [h1', h2]

/-- Witness for C6 at a host-bearing reference with no override. -/
theorem libraryEndpoint_precedence_witness :
    extHost.normalizeLibraryRef "library://x" = .ok ⟨"myhost"⟩ ∧
    Event.libConfig (resolveLibraryURI cfg0 ⟨"myhost"⟩) ∈
      (pullRun cfg0 extHost ["library://x"]).1 ∧
    effectiveEndpoint extHost.defaultEndpoint (resolveLibraryURI cfg0 ⟨"myhost"⟩) =
      "https://" ++ "myhost" := by
  have h := libraryEndpoint_precedence cfg0 extHost ["library://x"] ⟨"myhost"⟩ rfl
    (Or.inl (by decide)) (by decide) (Or.inl rfl) rfl (by decide)
  refine ⟨rfl, h.1, ?_⟩
  rw [h.2]
  decide

/-- C5 (amended): every run acquires the cache handle first, before
classification; at most one backend adapter is invoked, exactly one on
success, and any backend invocation happens only after classification,
destination resolution and the existence check, in that order. -/
theorem pullRun_stage_order (cfg : Config) (ext : Externals) (args : List String) :
    (pullRun cfg ext args).1.head? = some Event.cacheAcquire ∧
    (pullRun cfg ext args).1.countP isBackend ≤ 1 ∧
    ((pullRun cfg ext args).2 = .success → (pullRun cfg ext args).1.countP isBackend = 1) ∧
    ((pullRun cfg ext args).1.any isBackend = true →
      (pullRun cfg ext args).1.findIdx isClassify < (pullRun cfg ext args).1.findIdx isResolve ∧
      (pullRun cfg ext args).1.findIdx isResolve <
        (pullRun cfg ext args).1.findIdx isStatCheck ∧
      (pullRun cfg ext args).1.findIdx isStatCheck <
        (pullRun cfg ext args).1.findIdx isBackend) := by
  cases hch : ext.cacheHandle with
  | none =>
    unfold pullRun
    rw [hch]
    simp [isBackend, isClassify, isResolve, isStatCheck]
  | some u =>
    cases u
    by_cases hr : (ext.split (args.getLastD "")).2 = ""
    · unfold pullRun
      rw [hch]
      simp only []
      rw [if_pos hr]
      simp [List.countP_cons, isBackend, isClassify, isResolve, isStatCheck]
    · by_cases hs : ext.stat (resolvePullTo cfg ext args (args.getLastD "")
          (ext.split (args.getLastD "")).1) ≠ StatResult.notExist ∧ cfg.forceOverwrite = false
      · rw [pullRun_stat_fatal cfg ext args hch hr hs.1 hs.2]
        simp [List.countP_cons, isBackend, isClassify, isResolve, isStatCheck]
      · rw [pullRun_reach cfg ext args hch hr (not_fail_stat cfg _ hs)]
        set d := dispatch cfg ext (args.getLastD "") (ext.split (args.getLastD "")).1 with hd
        have hb := (dispatch_trace_events cfg ext (args.getLastD "")
          (ext.split (args.getLastD "")).1).1
        have hsuc := dispatch_success_backend cfg ext (args.getLastD "")
          (ext.split (args.getLastD "")).1
        rw [← hd] at hb hsuc
        refine ⟨by simp, ?_, ?_, ?_⟩
        · rw [List.countP_append]
          simp [List.countP_cons, isBackend]
          omega
        · intro ho
          rw [List.countP_append]
          have h1 := hsuc (by simpa using ho)
          simp [List.countP_cons, isBackend]
          omega
        · intro _
          simp [List.findIdx_cons, isClassify, isResolve, isStatCheck, isBackend]

/-- Witness for C5 (amended): a concrete successful run invoking one
backend after the pre-dispatch steps. -/
theorem pullRun_stage_order_witness :
    (pullRun cfg0 ext0 ["busybox"]).2 = .success ∧
    (pullRun cfg0 ext0 ["busybox"]).1.countP isBackend = 1 ∧
    (pullRun cfg0 ext0 ["busybox"]).1.any isBackend = true ∧
    (pullRun cfg0 ext0 ["busybox"]).1.findIdx isStatCheck <
      (pullRun cfg0 ext0 ["busybox"]).1.findIdx isBackend := by
  have h := pullRun_stage_order cfg0 ext0 ["busybox"]
  exact ⟨by decide, h.2.2.1 (by decide), by decide, (h.2.2.2 (by decide)).2.2⟩

/-- Counterexample to C5 as stated: the cache handle is acquired at the
very start of the run, before destination resolution (and before
classification), not after destination resolution. -/
theorem cacheHandle_first_cex :
    (pullRun cfg0 ext0 ["busybox"]).1.any isCacheAcquire = true ∧
    (pullRun cfg0 ext0 ["busybox"]).1.any isResolve = true ∧
    (pullRun cfg0 ext0 ["busybox"]).1.findIdx isCacheAcquire <
      (pullRun cfg0 ext0 ["busybox"]).1.findIdx isResolve := by
  decide

/-- A supported transport that matches none of the literal dispatch
edges must satisfy the OCI-compatibility predicate. -/
theorem supported_resid (ext : Externals) (t : String)
    (hsup : supportedTransport ext t)
    (b1 : ¬(t = LibraryProtocol ∨ t = ""))
    (b2 : t ≠ ShubProtocol) (b3 : t ≠ OrasProtocol)
    (b4 : ¬(t = HTTPProtocol ∨ t = HTTPSProtocol)) :
    ext.ociIsSupported t = t := by
  rcases hsup with h | h | h | h | h | h | h
  · exact absurd (Or.inl h) b1
  · exact absurd (Or.inr h) b1
  · exact absurd h b2
  · exact absurd h b3
  · exact absurd (Or.inl h) b4
  · exact absurd (Or.inr h) b4
  · exact h

/-- C4 (amended): a hard error from any transport terminates the run
fatally with a fixed transport-family prefix plus the underlying error;
the soft "pulled but unsigned" result (library only) is downgraded to
the "Skipping container verification" warning and the run exits
success; a success produces no warning. -/
theorem outcome_report (cfg : Config) (ext : Externals) (args : List String)
    (hc : ext.cacheHandle = some ())
    (hr : (ext.split (args.getLastD "")).2 ≠ "")
    (hs : ext.stat (resolvePullTo cfg ext args (args.getLastD "")
            (ext.split (args.getLastD "")).1) = StatResult.notExist ∨
          cfg.forceOverwrite = true)
    (hsup : supportedTransport ext (ext.split (args.getLastD "")).1)
    (hpre : preDispatchOk cfg ext (args.getLastD "")) :
    (∀ e, backendHardErr ext (ext.split (args.getLastD "")).1 e →
      (pullRun cfg ext args).2 = .fatal (hardErrMsg (ext.split (args.getLastD "")).1 e)) ∧
    (((ext.split (args.getLastD "")).1 = LibraryProtocol ∨
        (ext.split (args.getLastD "")).1 = "") →
      ext.libraryPull = .unsigned →
      (pullRun cfg ext args).2 = .success ∧
      Event.warn "Skipping container verification" ∈ (pullRun cfg ext args).1) ∧
    (backendOk ext (ext.split (args.getLastD "")).1 →
      (pullRun cfg ext args).2 = .success ∧ (pullRun cfg ext args).1.any isWarn = false) := by
  obtain ⟨⟨r, hn, hcon, hlc⟩, hk, hcred⟩ := hpre
  rw [pullRun_reach cfg ext args hc hr hs]
  refine ⟨?_, ?_, ?_⟩
  · intro e he
    unfold backendHardErr at he
    unfold dispatch libraryBranch hardErrMsg
    by_cases b1 : (ext.split (args.getLastD "")).1 = LibraryProtocol ∨
        (ext.split (args.getLastD "")).1 = ""
    · rw [if_pos b1] at he
      rw [if_pos b1, if_pos b1]
      simp only [hn]
      rw [if_neg hcon]
      simp [hlc, hk, he]
    · rw [if_neg b1] at he
      rw [if_neg b1, if_neg b1]
      by_cases b2 : (ext.split (args.getLastD "")).1 = ShubProtocol
      · rw [if_pos b2] at he
        rw [if_pos b2, if_pos b2]
        simp [he]
      · rw [if_neg b2] at he
        rw [if_neg b2, if_neg b2]
        by_cases b3 : (ext.split (args.getLastD "")).1 = OrasProtocol
        · rw [if_pos b3] at he
          rw [if_pos b3, if_pos b3]
          simp [hcred, he]
        · rw [if_neg b3] at he
          rw [if_neg b3, if_neg b3]
          by_cases b4 : (ext.split (args.getLastD "")).1 = HTTPProtocol ∨
              (ext.split (args.getLastD "")).1 = HTTPSProtocol
          · rw [if_pos b4] at he
            rw [if_pos b4, if_pos b4]
            simp [he]
          · rw [if_neg b4] at he
            rw [if_neg b4, if_neg b4]
            rw [if_pos (supported_resid ext _ hsup b1 b2 b3 b4)]
            simp [hcred, he]
  · intro hb1 hu
    unfold dispatch libraryBranch
    rw [if_pos hb1]
    simp only [hn]
    rw [if_neg hcon]
    simp [hlc, hk, hu]
  · intro hok
    unfold backendOk at hok
    unfold dispatch libraryBranch
    by_cases b1 : (ext.split (args.getLastD "")).1 = LibraryProtocol ∨
        (ext.split (args.getLastD "")).1 = ""
    · rw [if_pos b1] at hok
      rw [if_pos b1]
      simp only [hn]
      rw [if_neg hcon]
      simp [hlc, hk, hok, isWarn]
    · rw [if_neg b1] at hok
      rw [if_neg b1]
      by_cases b2 : (ext.split (args.getLastD "")).1 = ShubProtocol
      · rw [if_pos b2] at hok
        rw [if_pos b2]
        simp [hok, isWarn]
      · rw [if_neg b2] at hok
        rw [if_neg b2]
        by_cases b3 : (ext.split (args.getLastD "")).1 = OrasProtocol
        · rw [if_pos b3] at hok
          rw [if_pos b3]
          simp [hcred, hok, isWarn]
        · rw [if_neg b3] at hok
          rw [if_neg b3]
          by_cases b4 : (ext.split (args.getLastD "")).1 = HTTPProtocol ∨
              (ext.split (args.getLastD "")).1 = HTTPSProtocol
          · rw [if_pos b4] at hok
            rw [if_pos b4]
            simp [hok, isWarn]
          · rw [if_neg b4] at hok
            rw [if_neg b4]
            rw [if_pos (supported_resid ext _ hsup b1 b2 b3 b4)]
            simp [hcred, hok, isWarn]

/-- Witness for C4 (amended) at the shub transport with a hard
error. -/
theorem outcome_report_witness :
    supportedTransport extShubErr "shub" ∧
    preDispatchOk cfg0 extShubErr "shub://a" ∧
    backendHardErr extShubErr "shub" "boom" ∧
    (pullRun cfg0 extShubErr ["shub://a"]).2 = .fatal (hardErrMsg "shub" "boom") := by
  have hsup : supportedTransport extShubErr "shub" := Or.inr (Or.inr (Or.inl rfl))
  have hpre : preDispatchOk cfg0 extShubErr "shub://a" :=
    ⟨⟨⟨""⟩, rfl, by decide, rfl⟩, rfl, rfl⟩
  have hhe : backendHardErr extShubErr "shub" "boom" := by
    unfold backendHardErr
    rw [if_neg (by decide), if_pos (show "shub" = ShubProtocol by rfl)]
    rfl
  have h := (outcome_report cfg0 extShubErr ["shub://a"] rfl (by decide) (Or.inl rfl)
    hsup hpre).1 "boom" hhe
  exact ⟨hsup, hpre, hhe, h⟩

/-- Counterexample to C4 as stated: a hard error on the `oras`
transport produces a fatal message that does not contain the transport
name "oras" anywhere. -/
theorem outcome_transportName_cex :
    (pullRun cfg0 extOrasErr ["oras://a"]).2 =
      .fatal "While pulling image from oci registry: boom" ∧
    ¬ ("oras".toList <:+: "While pulling image from oci registry: boom".toList) := by
  decide

end Pull
